import Mathlib

/-!
# Session bridge (`static/firebase-init.js`)

A shallow embedding of the browser script that bridges the identity provider's
SDK to the backend session endpoints.

Every `async function` of the script is a straight-line sequence of awaited
calls inside one `try`/`catch`.  A run is modelled by the list of observable
effects it performs, in order, together with the way the returned promise
settles.  The collaborators (provider SDK, `fetch`) are answered by a `World`:
each awaited call either resolves with a value or rejects with an error.
No run of any function issues the same call twice, so a world that answers
each call by a fixed outcome loses no generality.
-/

namespace SessionBridge

/-! ## Values -/

/-- A thrown JavaScript error value: its `name` and its `message`. -/
structure JsError where
  name : String
  message : String
deriving DecidableEq, Repr

/-- The value built by `new Error(message)`. -/
def JsError.mkError (message : String) : JsError :=
  { name := "Error", message := message }

/-- The second argument of `fetch`: method, headers, and the object handed to
`JSON.stringify` for the body (kept as its list of fields). -/
structure RequestInit where
  method : String
  headers : List (String × String)
  body : Option (List (String × String))
deriving DecidableEq, Repr

/-- A `fetch` response; the script only reads `response.ok`. -/
structure Response where
  ok : Bool
deriving DecidableEq, Repr

/-- The part of `result.additionalUserInfo` the script reads. -/
structure AdditionalUserInfo where
  isNewUser : Bool
deriving DecidableEq, Repr

/-- The part of `result.user` the script uses: what awaiting `getIdToken()` gives. -/
structure User where
  getIdToken : Except JsError String

/-- The credential a provider call resolves with. -/
structure UserCredential where
  user : User
  additionalUserInfo : AdditionalUserInfo

/-- The answers of the collaborators to the calls the script awaits.  An outcome
`.error e` stands for the awaited expression throwing `e`, whatever the cause. -/
structure World where
  signInWithPopup : Except JsError UserCredential
  signInWithEmailAndPassword : String → String → Except JsError UserCredential
  createUserWithEmailAndPassword : String → String → Except JsError UserCredential
  signOut : Except JsError Unit
  fetch : String → RequestInit → Except JsError Response

/-! ## Effects and runs -/

/-- The observable effects of the script, one constructor per call site kind. -/
inductive Effect where
  | authSignInWithPopup
  | authSignInWithEmailAndPassword (email password : String)
  | authCreateUserWithEmailAndPassword (email password : String)
  | userGetIdToken
  | authSignOut
  | fetch (url : String) (init : RequestInit)
  | setLocationHref (url : String)
  | alert (message : String)
  | consoleError (label : String) (error : JsError)
deriving DecidableEq, Repr

/-- A finished run: the effects performed, in order, and the settlement of the
returned promise (`.ok v` resolved with `v`, `.error e` rejected with `e`). -/
structure Run (α : Type) where
  trace : List Effect
  completion : Except JsError α

namespace Run

/-- A run that performs nothing and resolves with `a`. -/
def ret {α : Type} (a : α) : Run α := ⟨[], .ok a⟩

/-- Sequencing: the continuation runs only when the first part did not throw. -/
def andThen {α β : Type} (x : Run α) (f : α → Run β) : Run β :=
  match x.completion with
  | .ok a => ⟨x.trace ++ (f a).trace, (f a).completion⟩
  | .error e => ⟨x.trace, .error e⟩

/-- Performing one effect whose awaited outcome is `o`. -/
def await {α : Type} (eff : Effect) (o : Except JsError α) : Run α := ⟨[eff], o⟩

/-- Performing one effect that cannot throw. -/
def perform (eff : Effect) : Run Unit := ⟨[eff], .ok ()⟩

/-- The statement `throw e`. -/
def throw {α : Type} (e : JsError) : Run α := ⟨[], .error e⟩

/-- The statement `try { body } catch (error) { handler error }`. -/
def tryCatch {α : Type} (body : Run α) (handler : JsError → Run α) : Run α :=
  match body.completion with
  | .ok _ => body
  | .error e => ⟨body.trace ++ (handler e).trace, (handler e).completion⟩

end Run

instance : Monad Run where
  pure := Run.ret
  bind := Run.andThen

/-! ## The functions of the script -/

/-- The request options of the `/session-login` call (lines 28-34). -/
def sessionLoginInit (idToken : String) : RequestInit :=
  { method := "POST"
    headers := [("Content-Type", "application/json")]
    body := some [("idToken", idToken)] }

/-- The request options `{ method: 'POST' }` of the other backend calls. -/
def postInit : RequestInit :=
  { method := "POST", headers := [], body := none }

/-- Lines 27-36. -/
def setSessionCookie (w : World) (idToken : String) : Run Bool := do
  let response ← Run.await (.fetch "/session-login" (sessionLoginInit idToken))
    (w.fetch "/session-login" (sessionLoginInit idToken))
  return response.ok

/-- Lines 43-63. -/
def signInWithGoogle (w : World) : Run Unit :=
  Run.tryCatch
    (do
      let result ← Run.await .authSignInWithPopup w.signInWithPopup
      let idToken ← Run.await .userGetIdToken result.user.getIdToken
      if (← setSessionCookie w idToken) then
        if result.additionalUserInfo.isNewUser then
          let _ ← Run.await (.fetch "/create-profile" postInit) (w.fetch "/create-profile" postInit)
        Run.perform (.setLocationHref "/check-onboarding")
      else
        Run.perform (.alert "Failed to log in to backend. Please try again."))
    (fun error => do
      Run.perform (.consoleError "Google sign-in error:" error)
      Run.perform (.alert error.message))

/-- Lines 68-83. -/
def signInWithEmail (w : World) (email password : String) : Run Unit :=
  Run.tryCatch
    (do
      let result ← Run.await (.authSignInWithEmailAndPassword email password)
        (w.signInWithEmailAndPassword email password)
      let idToken ← Run.await .userGetIdToken result.user.getIdToken
      if (← setSessionCookie w idToken) then
        Run.perform (.setLocationHref "/check-onboarding")
      else
        Run.perform (.alert "Failed to log in to backend. Please try again."))
    (fun error => do
      Run.perform (.consoleError "Email sign-in error:" error)
      Run.throw (JsError.mkError error.message))

/-- Lines 88-105. -/
def signUpWithEmail (w : World) (email password : String) : Run Unit :=
  Run.tryCatch
    (do
      let result ← Run.await (.authCreateUserWithEmailAndPassword email password)
        (w.createUserWithEmailAndPassword email password)
      let idToken ← Run.await .userGetIdToken result.user.getIdToken
      if (← setSessionCookie w idToken) then
        let _ ← Run.await (.fetch "/create-profile" postInit) (w.fetch "/create-profile" postInit)
        Run.perform (.setLocationHref "/check-onboarding")
      else
        Run.perform (.alert "Failed to create backend session. Please try again."))
    (fun error => do
      Run.perform (.consoleError "Email sign-up error:" error)
      Run.throw (JsError.mkError error.message))

/-- Lines 110-119. -/
def signOut (w : World) : Run Unit :=
  Run.tryCatch
    (do
      Run.await .authSignOut w.signOut
      let _ ← Run.await (.fetch "/logout" postInit) (w.fetch "/logout" postInit)
      Run.perform (.setLocationHref "/login"))
    (fun error => do
      Run.perform (.consoleError "Error signing out:" error)
      Run.perform (.alert "Error signing out. Please clear your cookies."))

/-! ## Top-level initialisation (lines 4-21)

The script's top level is five `const` declarations.  A `const` binding exists
from the start of the script but stays uninitialised until its declaration has
been evaluated; reading it earlier throws a `ReferenceError`, as does reading a
global name the host page does not define.  An uncaught error ends the script.
-/

/-- The `const` bindings the script declares at top level. -/
inductive TopLevelName where
  | firebaseConfig
  | analytics
  | app
  | auth
  | googleProvider
deriving DecidableEq, Repr

/-- The global names the initialisers expect from the page. -/
inductive HostName where
  | getAnalytics
  | firebase
deriving DecidableEq, Repr

/-- An identifier read by an initialiser. -/
inductive Reference where
  | topLevel (n : TopLevelName)
  | host (n : HostName)
deriving DecidableEq, Repr

/-- One `const name = initialiser;`: the identifiers the initialiser reads, in
evaluation order (callee before arguments). -/
structure ConstDeclaration where
  name : TopLevelName
  reads : List Reference
deriving DecidableEq, Repr

/-- Lines 4-21, in source order. -/
def topLevelDeclarations : List ConstDeclaration :=
  [ { name := .firebaseConfig, reads := [] },
    { name := .analytics, reads := [.host .getAnalytics, .topLevel .app] },
    { name := .app, reads := [.host .firebase, .topLevel .firebaseConfig] },
    { name := .auth, reads := [.host .firebase] },
    { name := .googleProvider, reads := [.host .firebase] } ]

/-- The two ways reading an identifier throws a `ReferenceError`. -/
inductive ReferenceError where
  | accessBeforeInitialization (n : TopLevelName)
  | notDefined (n : HostName)
deriving DecidableEq, Repr

/-- Reading one identifier when the bindings in `initialised` have been
initialised and the page defines the globals accepted by `host`. -/
def readReference (host : HostName → Bool) (initialised : List TopLevelName) :
    Reference → Except ReferenceError Unit
  | .topLevel n => if n ∈ initialised then .ok () else .error (.accessBeforeInitialization n)
  | .host n => if host n then .ok () else .error (.notDefined n)

/-- Reading identifiers in order; the first failing read throws. -/
def readAll (host : HostName → Bool) (initialised : List TopLevelName) :
    List Reference → Except ReferenceError Unit
  | [] => .ok ()
  | r :: rs =>
    match readReference host initialised r with
    | .ok () => readAll host initialised rs
    | .error e => .error e

/-- How loading ended: the bindings initialised, and the uncaught error if any. -/
structure LoadResult where
  initialised : List TopLevelName
  error : Option ReferenceError
deriving DecidableEq, Repr

/-- Evaluating declarations in order.  The SDK calls made by the initialisers
are taken to succeed, so the only errors are those of reading identifiers. -/
def evalDeclarations (host : HostName → Bool) :
    List TopLevelName → List ConstDeclaration → LoadResult
  | initialised, [] => { initialised := initialised, error := none }
  | initialised, d :: ds =>
    match readAll host initialised d.reads with
    | .ok () => evalDeclarations host (initialised ++ [d.name]) ds
    | .error e => { initialised := initialised, error := some e }

/-- Loading the script in a page that defines the globals accepted by `host`. -/
def loadScript (host : HostName → Bool) : LoadResult :=
  evalDeclarations host [] topLevelDeclarations

/-! ## Observations on traces -/

/-- Whether an effect is a backend request to `url`. -/
def Effect.isRequestTo (url : String) : Effect → Bool
  | .fetch u _ => u == url
  | _ => false

/-- Whether an effect is a backend request. -/
def Effect.isFetch : Effect → Bool
  | .fetch _ _ => true
  | _ => false

/-- Whether an effect is an `alert(...)`. -/
def Effect.isAlert : Effect → Bool
  | .alert _ => true
  | _ => false

/-- Whether an effect assigns `window.location.href`. -/
def Effect.isSetLocationHref : Effect → Bool
  | .setLocationHref _ => true
  | _ => false

/-- The `POST /session-login` request carrying `idToken`. -/
def sessionLoginRequest (idToken : String) : Effect :=
  .fetch "/session-login" (sessionLoginInit idToken)

/-- The `POST /create-profile` request. -/
def createProfileRequest : Effect := .fetch "/create-profile" postInit

/-- The `POST /logout` request. -/
def logoutRequest : Effect := .fetch "/logout" postInit

/-- The assignment `window.location.href = '/check-onboarding'`. -/
def redirectToOnboarding : Effect := .setLocationHref "/check-onboarding"

/-! ## Sample worlds -/

/-- A user whose token retrieval resolves with `idToken`. -/
def sampleUser (idToken : String) : User := { getIdToken := .ok idToken }

/-- The error `fetch` rejects with when the network is unreachable. -/
def networkError : JsError := { name := "TypeError", message := "Failed to fetch" }

/-- The error the provider rejects a wrong password with. -/
def wrongPasswordError : JsError :=
  { name := "FirebaseError", message := "The password is invalid." }

/-- A backend that answers every request with a success status. -/
def backendUp : String → RequestInit → Except JsError Response :=
  fun _ _ => .ok { ok := true }

/-- A backend that cannot be reached at all. -/
def backendUnreachable : String → RequestInit → Except JsError Response :=
  fun _ _ => .error networkError

/-- A backend that answers `/session-login` with a non-success status. -/
def backendRefusingSession : String → RequestInit → Except JsError Response :=
  fun url _ => if url = "/session-login" then .ok { ok := false } else .ok { ok := true }

/-- A backend where only the `/create-profile` request fails in transport. -/
def backendProfileUnreachable : String → RequestInit → Except JsError Response :=
  fun url _ => if url = "/create-profile" then .error networkError else .ok { ok := true }

/-- A backend that answers `/create-profile` and `/logout` with a non-success status. -/
def backendFailingFollowUps : String → RequestInit → Except JsError Response :=
  fun url _ => if url = "/session-login" then .ok { ok := true } else .ok { ok := false }

/-- A world whose provider accepts every sign-in except the password `"wrong"`,
issues the token `"token"`, and reports the new-user flag `isNewUser`. -/
def sampleWorld (isNewUser : Bool)
    (fetch : String → RequestInit → Except JsError Response) : World :=
  { signInWithPopup := .ok ⟨sampleUser "token", ⟨isNewUser⟩⟩
    signInWithEmailAndPassword := fun _ password =>
      if password = "wrong" then .error wrongPasswordError
      else .ok ⟨sampleUser "token", ⟨isNewUser⟩⟩
    createUserWithEmailAndPassword := fun _ password =>
      if password = "wrong" then .error wrongPasswordError
      else .ok ⟨sampleUser "token", ⟨isNewUser⟩⟩
    signOut := .ok ()
    fetch := fetch }

/-! ## The runs, case by case -/

section Shapes

variable (w : World) (email password : String)

theorem setSessionCookie_eq (idToken : String) :
    setSessionCookie w idToken =
      ⟨[sessionLoginRequest idToken],
        match w.fetch "/session-login" (sessionLoginInit idToken) with
        | .ok response => .ok response.ok
        | .error e => .error e⟩ := by
  cases h : w.fetch "/session-login" (sessionLoginInit idToken) <;>
    simp [setSessionCookie, sessionLoginRequest, Run.await, Run.andThen, Run.ret, bind, pure, h]

theorem setSessionCookie_accepted (idToken : String)
    (h : (setSessionCookie w idToken).completion = .ok true) :
    ∃ response, w.fetch "/session-login" (sessionLoginInit idToken) = .ok response ∧
      response.ok = true := by
  rw [setSessionCookie_eq] at h
  cases hf : w.fetch "/session-login" (sessionLoginInit idToken) with
  | error e => simp [hf] at h
  | ok response => exact ⟨response, rfl, by simpa [hf] using h⟩

theorem setSessionCookie_refused (idToken : String)
    (h : (setSessionCookie w idToken).completion = .ok false) :
    ∃ response, w.fetch "/session-login" (sessionLoginInit idToken) = .ok response ∧
      response.ok = false := by
  rw [setSessionCookie_eq] at h
  cases hf : w.fetch "/session-login" (sessionLoginInit idToken) with
  | error e => simp [hf] at h
  | ok response => exact ⟨response, rfl, by simpa [hf] using h⟩

theorem signOut_provider_error {e : JsError} (h : w.signOut = .error e) :
    signOut w =
      ⟨[.authSignOut, .consoleError "Error signing out:" e,
        .alert "Error signing out. Please clear your cookies."], .ok ()⟩ := by
  simp [signOut, Run.tryCatch, Run.await, Run.perform, Run.andThen, bind, h]

theorem signOut_logout_error {e : JsError} (h : w.signOut = .ok ())
    (hf : w.fetch "/logout" postInit = .error e) :
    signOut w =
      ⟨[.authSignOut, logoutRequest, .consoleError "Error signing out:" e,
        .alert "Error signing out. Please clear your cookies."], .ok ()⟩ := by
  simp [signOut, logoutRequest, Run.tryCatch, Run.await, Run.perform, Run.andThen, bind, h, hf]

theorem signOut_logout_resolved {response : Response} (h : w.signOut = .ok ())
    (hf : w.fetch "/logout" postInit = .ok response) :
    signOut w = ⟨[.authSignOut, logoutRequest, .setLocationHref "/login"], .ok ()⟩ := by
  simp [signOut, logoutRequest, Run.tryCatch, Run.await, Run.perform, Run.andThen, bind, h, hf]

/-! ### `signInWithGoogle` -/

theorem signInWithGoogle_provider_error {e : JsError} (h : w.signInWithPopup = .error e) :
    signInWithGoogle w =
      ⟨[.authSignInWithPopup, .consoleError "Google sign-in error:" e, .alert e.message],
        .ok ()⟩ := by
  simp [signInWithGoogle, Run.tryCatch, Run.await, Run.perform, Run.andThen, bind, h]

theorem signInWithGoogle_token_error {r : UserCredential} {e : JsError}
    (h : w.signInWithPopup = .ok r) (ht : r.user.getIdToken = .error e) :
    signInWithGoogle w =
      ⟨[.authSignInWithPopup, .userGetIdToken, .consoleError "Google sign-in error:" e,
        .alert e.message], .ok ()⟩ := by
  simp [signInWithGoogle, Run.tryCatch, Run.await, Run.perform, Run.andThen, bind, h, ht]

theorem signInWithGoogle_session_error {r : UserCredential} {idToken : String} {e : JsError}
    (h : w.signInWithPopup = .ok r) (ht : r.user.getIdToken = .ok idToken)
    (hs : w.fetch "/session-login" (sessionLoginInit idToken) = .error e) :
    signInWithGoogle w =
      ⟨[.authSignInWithPopup, .userGetIdToken, sessionLoginRequest idToken,
        .consoleError "Google sign-in error:" e, .alert e.message], .ok ()⟩ := by
  simp [signInWithGoogle, setSessionCookie_eq, Run.tryCatch, Run.await, Run.perform,
    Run.andThen, bind, h, ht, hs]

theorem signInWithGoogle_session_refused {r : UserCredential} {idToken : String}
    {response : Response}
    (h : w.signInWithPopup = .ok r) (ht : r.user.getIdToken = .ok idToken)
    (hs : w.fetch "/session-login" (sessionLoginInit idToken) = .ok response)
    (hok : response.ok = false) :
    signInWithGoogle w =
      ⟨[.authSignInWithPopup, .userGetIdToken, sessionLoginRequest idToken,
        .alert "Failed to log in to backend. Please try again."], .ok ()⟩ := by
  simp [signInWithGoogle, setSessionCookie_eq, Run.tryCatch, Run.await, Run.perform,
    Run.andThen, bind, h, ht, hs, hok]

theorem signInWithGoogle_existing_user {r : UserCredential} {idToken : String}
    {response : Response}
    (h : w.signInWithPopup = .ok r) (ht : r.user.getIdToken = .ok idToken)
    (hs : w.fetch "/session-login" (sessionLoginInit idToken) = .ok response)
    (hok : response.ok = true) (hnew : r.additionalUserInfo.isNewUser = false) :
    signInWithGoogle w =
      ⟨[.authSignInWithPopup, .userGetIdToken, sessionLoginRequest idToken,
        redirectToOnboarding], .ok ()⟩ := by
  simp [signInWithGoogle, setSessionCookie_eq, redirectToOnboarding, Run.tryCatch, Run.await,
    Run.perform, Run.andThen, Run.ret, bind, pure, h, ht, hs, hok, hnew]

theorem signInWithGoogle_new_user_profile_resolved {r : UserCredential} {idToken : String}
    {response profileResponse : Response}
    (h : w.signInWithPopup = .ok r) (ht : r.user.getIdToken = .ok idToken)
    (hs : w.fetch "/session-login" (sessionLoginInit idToken) = .ok response)
    (hok : response.ok = true) (hnew : r.additionalUserInfo.isNewUser = true)
    (hp : w.fetch "/create-profile" postInit = .ok profileResponse) :
    signInWithGoogle w =
      ⟨[.authSignInWithPopup, .userGetIdToken, sessionLoginRequest idToken,
        createProfileRequest, redirectToOnboarding], .ok ()⟩ := by
  simp [signInWithGoogle, setSessionCookie_eq, redirectToOnboarding, createProfileRequest,
    Run.tryCatch, Run.await, Run.perform, Run.andThen, Run.ret, bind, pure, h, ht, hs, hok,
    hnew, hp]

theorem signInWithGoogle_new_user_profile_error {r : UserCredential} {idToken : String}
    {response : Response} {e : JsError}
    (h : w.signInWithPopup = .ok r) (ht : r.user.getIdToken = .ok idToken)
    (hs : w.fetch "/session-login" (sessionLoginInit idToken) = .ok response)
    (hok : response.ok = true) (hnew : r.additionalUserInfo.isNewUser = true)
    (hp : w.fetch "/create-profile" postInit = .error e) :
    signInWithGoogle w =
      ⟨[.authSignInWithPopup, .userGetIdToken, sessionLoginRequest idToken,
        createProfileRequest, .consoleError "Google sign-in error:" e, .alert e.message],
        .ok ()⟩ := by
  simp [signInWithGoogle, setSessionCookie_eq, createProfileRequest,
    Run.tryCatch, Run.await, Run.perform, Run.andThen, Run.ret, bind, pure, h, ht, hs, hok,
    hnew, hp]

/-! ### `signInWithEmail` -/

theorem signInWithEmail_provider_error {e : JsError}
    (h : w.signInWithEmailAndPassword email password = .error e) :
    signInWithEmail w email password =
      ⟨[.authSignInWithEmailAndPassword email password, .consoleError "Email sign-in error:" e],
        .error (JsError.mkError e.message)⟩ := by
  simp [signInWithEmail, Run.tryCatch, Run.await, Run.perform, Run.throw, Run.andThen, bind, h]

theorem signInWithEmail_token_error {r : UserCredential} {e : JsError}
    (h : w.signInWithEmailAndPassword email password = .ok r)
    (ht : r.user.getIdToken = .error e) :
    signInWithEmail w email password =
      ⟨[.authSignInWithEmailAndPassword email password, .userGetIdToken,
        .consoleError "Email sign-in error:" e], .error (JsError.mkError e.message)⟩ := by
  simp [signInWithEmail, Run.tryCatch, Run.await, Run.perform, Run.throw, Run.andThen, bind,
    h, ht]

theorem signInWithEmail_session_error {r : UserCredential} {idToken : String} {e : JsError}
    (h : w.signInWithEmailAndPassword email password = .ok r)
    (ht : r.user.getIdToken = .ok idToken)
    (hs : w.fetch "/session-login" (sessionLoginInit idToken) = .error e) :
    signInWithEmail w email password =
      ⟨[.authSignInWithEmailAndPassword email password, .userGetIdToken,
        sessionLoginRequest idToken, .consoleError "Email sign-in error:" e],
        .error (JsError.mkError e.message)⟩ := by
  simp [signInWithEmail, setSessionCookie_eq, Run.tryCatch, Run.await, Run.perform, Run.throw,
    Run.andThen, bind, h, ht, hs]

theorem signInWithEmail_session_refused {r : UserCredential} {idToken : String}
    {response : Response}
    (h : w.signInWithEmailAndPassword email password = .ok r)
    (ht : r.user.getIdToken = .ok idToken)
    (hs : w.fetch "/session-login" (sessionLoginInit idToken) = .ok response)
    (hok : response.ok = false) :
    signInWithEmail w email password =
      ⟨[.authSignInWithEmailAndPassword email password, .userGetIdToken,
        sessionLoginRequest idToken, .alert "Failed to log in to backend. Please try again."],
        .ok ()⟩ := by
  simp [signInWithEmail, setSessionCookie_eq, Run.tryCatch, Run.await, Run.perform, Run.throw,
    Run.andThen, bind, h, ht, hs, hok]

theorem signInWithEmail_session_accepted {r : UserCredential} {idToken : String}
    {response : Response}
    (h : w.signInWithEmailAndPassword email password = .ok r)
    (ht : r.user.getIdToken = .ok idToken)
    (hs : w.fetch "/session-login" (sessionLoginInit idToken) = .ok response)
    (hok : response.ok = true) :
    signInWithEmail w email password =
      ⟨[.authSignInWithEmailAndPassword email password, .userGetIdToken,
        sessionLoginRequest idToken, redirectToOnboarding], .ok ()⟩ := by
  simp [signInWithEmail, setSessionCookie_eq, redirectToOnboarding, Run.tryCatch, Run.await,
    Run.perform, Run.throw, Run.andThen, bind, h, ht, hs, hok]

/-! ### `signUpWithEmail` -/

theorem signUpWithEmail_provider_error {e : JsError}
    (h : w.createUserWithEmailAndPassword email password = .error e) :
    signUpWithEmail w email password =
      ⟨[.authCreateUserWithEmailAndPassword email password,
        .consoleError "Email sign-up error:" e], .error (JsError.mkError e.message)⟩ := by
  simp [signUpWithEmail, Run.tryCatch, Run.await, Run.perform, Run.throw, Run.andThen, bind, h]

theorem signUpWithEmail_token_error {r : UserCredential} {e : JsError}
    (h : w.createUserWithEmailAndPassword email password = .ok r)
    (ht : r.user.getIdToken = .error e) :
    signUpWithEmail w email password =
      ⟨[.authCreateUserWithEmailAndPassword email password, .userGetIdToken,
        .consoleError "Email sign-up error:" e], .error (JsError.mkError e.message)⟩ := by
  simp [signUpWithEmail, Run.tryCatch, Run.await, Run.perform, Run.throw, Run.andThen, bind,
    h, ht]

theorem signUpWithEmail_session_error {r : UserCredential} {idToken : String} {e : JsError}
    (h : w.createUserWithEmailAndPassword email password = .ok r)
    (ht : r.user.getIdToken = .ok idToken)
    (hs : w.fetch "/session-login" (sessionLoginInit idToken) = .error e) :
    signUpWithEmail w email password =
      ⟨[.authCreateUserWithEmailAndPassword email password, .userGetIdToken,
        sessionLoginRequest idToken, .consoleError "Email sign-up error:" e],
        .error (JsError.mkError e.message)⟩ := by
  simp [signUpWithEmail, setSessionCookie_eq, Run.tryCatch, Run.await, Run.perform, Run.throw,
    Run.andThen, bind, h, ht, hs]

theorem signUpWithEmail_session_refused {r : UserCredential} {idToken : String}
    {response : Response}
    (h : w.createUserWithEmailAndPassword email password = .ok r)
    (ht : r.user.getIdToken = .ok idToken)
    (hs : w.fetch "/session-login" (sessionLoginInit idToken) = .ok response)
    (hok : response.ok = false) :
    signUpWithEmail w email password =
      ⟨[.authCreateUserWithEmailAndPassword email password, .userGetIdToken,
        sessionLoginRequest idToken,
        .alert "Failed to create backend session. Please try again."], .ok ()⟩ := by
  simp [signUpWithEmail, setSessionCookie_eq, Run.tryCatch, Run.await, Run.perform, Run.throw,
    Run.andThen, bind, h, ht, hs, hok]

theorem signUpWithEmail_profile_resolved {r : UserCredential} {idToken : String}
    {response profileResponse : Response}
    (h : w.createUserWithEmailAndPassword email password = .ok r)
    (ht : r.user.getIdToken = .ok idToken)
    (hs : w.fetch "/session-login" (sessionLoginInit idToken) = .ok response)
    (hok : response.ok = true)
    (hp : w.fetch "/create-profile" postInit = .ok profileResponse) :
    signUpWithEmail w email password =
      ⟨[.authCreateUserWithEmailAndPassword email password, .userGetIdToken,
        sessionLoginRequest idToken, createProfileRequest, redirectToOnboarding], .ok ()⟩ := by
  simp [signUpWithEmail, setSessionCookie_eq, redirectToOnboarding, createProfileRequest,
    Run.tryCatch, Run.await, Run.perform, Run.throw, Run.andThen, bind, h, ht, hs, hok, hp]

theorem signUpWithEmail_profile_error {r : UserCredential} {idToken : String}
    {response : Response} {e : JsError}
    (h : w.createUserWithEmailAndPassword email password = .ok r)
    (ht : r.user.getIdToken = .ok idToken)
    (hs : w.fetch "/session-login" (sessionLoginInit idToken) = .ok response)
    (hok : response.ok = true)
    (hp : w.fetch "/create-profile" postInit = .error e) :
    signUpWithEmail w email password =
      ⟨[.authCreateUserWithEmailAndPassword email password, .userGetIdToken,
        sessionLoginRequest idToken, createProfileRequest,
        .consoleError "Email sign-up error:" e], .error (JsError.mkError e.message)⟩ := by
  simp [signUpWithEmail, setSessionCookie_eq, createProfileRequest,
    Run.tryCatch, Run.await, Run.perform, Run.throw, Run.andThen, bind, h, ht, hs, hok, hp]

end Shapes

/-! ## Claims -/

/-- Claim C1, as stated, fails: when `fetch` rejects (transport failure),
`setSessionCookie` does not resolve to `false`; it rejects with the error of `fetch`. -/
theorem setSessionCookie_transport_failure_rejects :
    (setSessionCookie (sampleWorld false backendUnreachable) "token").completion
        ≠ .ok false ∧
      (setSessionCookie (sampleWorld false backendUnreachable) "token").completion
        = .error networkError := by
  simp [setSessionCookie_eq, sampleWorld, backendUnreachable]

/-- Claim C1 (amended): for every identity token, `setSessionCookie` issues exactly one
request, the `POST /session-login` carrying the token; when the request resolves it
resolves to the response's `ok` flag (true on a success status, false otherwise); when
the request fails in transport it rejects with the error of `fetch`. -/
theorem setSessionCookie_single_request (w : World) (idToken : String) :
    (setSessionCookie w idToken).trace = [sessionLoginRequest idToken] ∧
      (∀ response, w.fetch "/session-login" (sessionLoginInit idToken) = .ok response →
        (setSessionCookie w idToken).completion = .ok response.ok) ∧
      (∀ e, w.fetch "/session-login" (sessionLoginInit idToken) = .error e →
        (setSessionCookie w idToken).completion = .error e) := by
  refine ⟨by simp [setSessionCookie_eq], ?_, ?_⟩
  · intro response h
    simp [setSessionCookie_eq, h]
  · intro e h
    simp [setSessionCookie_eq, h]

theorem setSessionCookie_single_request_witness :
    (setSessionCookie (sampleWorld false backendRefusingSession) "token").completion
      = .ok false :=
  (setSessionCookie_single_request (sampleWorld false backendRefusingSession) "token").2.1
    { ok := false } rfl

/-- Claim C2, as stated, fails: with provider call, token retrieval and session exchange
all successful, a `/create-profile` request that fails in transport prevents the
redirect; `signInWithGoogle` shows the error in an alert and `signUpWithEmail` rejects. -/
theorem profile_transport_failure_is_observed :
    redirectToOnboarding ∉ (signInWithGoogle (sampleWorld true backendProfileUnreachable)).trace ∧
      Effect.alert "Failed to fetch" ∈
        (signInWithGoogle (sampleWorld true backendProfileUnreachable)).trace ∧
      redirectToOnboarding ∉
        (signUpWithEmail (sampleWorld true backendProfileUnreachable)
          "a@example.com" "correct").trace ∧
      (signUpWithEmail (sampleWorld true backendProfileUnreachable)
          "a@example.com" "correct").completion = .error (JsError.mkError "Failed to fetch") := by
  rw [@signInWithGoogle_new_user_profile_error (sampleWorld true backendProfileUnreachable)
      ⟨sampleUser "token", ⟨true⟩⟩ "token" ⟨true⟩ networkError rfl rfl rfl rfl rfl rfl,
    @signUpWithEmail_profile_error (sampleWorld true backendProfileUnreachable)
      "a@example.com" "correct" ⟨sampleUser "token", ⟨true⟩⟩ "token" ⟨true⟩ networkError
      rfl rfl rfl rfl rfl]
  simp [redirectToOnboarding, sessionLoginRequest, createProfileRequest, networkError]

/-- Claim C2 (amended): in every run of `signInWithGoogle`, `signInWithEmail` or
`signUpWithEmail` in which the provider call and the token retrieval succeed and the
`/session-login` response has a success status, the run ends by assigning
`'/check-onboarding'` to `window.location.href`, shows no alert and resolves, whatever
the status of the `/create-profile` response, provided that request, where one is
issued, resolves (does not fail in transport). -/
theorem accepted_session_ends_with_redirect (w : World) (email password : String)
    (r : UserCredential) (idToken : String) (response : Response)
    (ht : r.user.getIdToken = .ok idToken)
    (hs : w.fetch "/session-login" (sessionLoginInit idToken) = .ok response)
    (hok : response.ok = true) :
    (w.signInWithPopup = .ok r →
        (r.additionalUserInfo.isNewUser = true →
          ∃ profileResponse, w.fetch "/create-profile" postInit = .ok profileResponse) →
        (signInWithGoogle w).trace.getLast? = some redirectToOnboarding ∧
          (signInWithGoogle w).trace.filter Effect.isAlert = [] ∧
          (signInWithGoogle w).completion = .ok ()) ∧
      (w.signInWithEmailAndPassword email password = .ok r →
        (signInWithEmail w email password).trace.getLast? = some redirectToOnboarding ∧
          (signInWithEmail w email password).trace.filter Effect.isAlert = [] ∧
          (signInWithEmail w email password).completion = .ok ()) ∧
      (w.createUserWithEmailAndPassword email password = .ok r →
        (∃ profileResponse, w.fetch "/create-profile" postInit = .ok profileResponse) →
        (signUpWithEmail w email password).trace.getLast? = some redirectToOnboarding ∧
          (signUpWithEmail w email password).trace.filter Effect.isAlert = [] ∧
          (signUpWithEmail w email password).completion = .ok ()) := by
  refine ⟨?_, ?_, ?_⟩
  · intro h hp
    cases hnew : r.additionalUserInfo.isNewUser with
    | false =>
      rw [signInWithGoogle_existing_user w h ht hs hok hnew]
      simp [redirectToOnboarding, sessionLoginRequest, Effect.isAlert]
    | true =>
      obtain ⟨profileResponse, hpr⟩ := hp hnew
      rw [signInWithGoogle_new_user_profile_resolved w h ht hs hok hnew hpr]
      simp [redirectToOnboarding, sessionLoginRequest, createProfileRequest, Effect.isAlert]
  · intro h
    rw [signInWithEmail_session_accepted w email password h ht hs hok]
    simp [redirectToOnboarding, sessionLoginRequest, Effect.isAlert]
  · intro h hp
    obtain ⟨profileResponse, hpr⟩ := hp
    rw [signUpWithEmail_profile_resolved w email password h ht hs hok hpr]
    simp [redirectToOnboarding, sessionLoginRequest, createProfileRequest, Effect.isAlert]

theorem accepted_session_ends_with_redirect_witness :
    (signUpWithEmail (sampleWorld false backendFailingFollowUps)
        "a@example.com" "correct").trace.getLast? = some redirectToOnboarding ∧
      (signUpWithEmail (sampleWorld false backendFailingFollowUps)
        "a@example.com" "correct").trace.filter Effect.isAlert = [] ∧
      (signUpWithEmail (sampleWorld false backendFailingFollowUps)
        "a@example.com" "correct").completion = .ok () :=
  (accepted_session_ends_with_redirect (sampleWorld false backendFailingFollowUps)
    "a@example.com" "correct" ⟨sampleUser "token", ⟨false⟩⟩ "token" { ok := true }
    rfl rfl rfl).2.2 rfl ⟨{ ok := false }, rfl⟩

/-- Claim C3, as stated, fails: the provider sign-in succeeds and reports a new user,
the backend answers `/session-login` with a non-success status, and no
`/create-profile` request is issued. -/
theorem refused_session_skips_profile_creation :
    (∃ r, (sampleWorld true backendRefusingSession).signInWithPopup = .ok r ∧
        r.additionalUserInfo.isNewUser = true) ∧
      createProfileRequest ∉ (signInWithGoogle (sampleWorld true backendRefusingSession)).trace ∧
      (signInWithGoogle (sampleWorld true backendRefusingSession)).trace.filter
        (Effect.isRequestTo "/create-profile") = [] := by
  refine ⟨⟨⟨sampleUser "token", ⟨true⟩⟩, rfl, rfl⟩, ?_⟩
  rw [@signInWithGoogle_session_refused (sampleWorld true backendRefusingSession)
      ⟨sampleUser "token", ⟨true⟩⟩ "token" ⟨false⟩ rfl rfl rfl rfl]
  simp [sessionLoginRequest, createProfileRequest, Effect.isRequestTo]

/-- Claim C3 (amended): in every run of `signInWithGoogle` in which the provider sign-in
succeeds and reports new-user flag `b`, a `POST /create-profile` request is issued if
and only if `b` is true and the token retrieval succeeds and the `/session-login`
request resolves with a success status. -/
theorem profile_creation_requested_iff (w : World) (r : UserCredential)
    (h : w.signInWithPopup = .ok r) :
    createProfileRequest ∈ (signInWithGoogle w).trace ↔
      (r.additionalUserInfo.isNewUser = true ∧
        ∃ idToken response, r.user.getIdToken = .ok idToken ∧
          w.fetch "/session-login" (sessionLoginInit idToken) = .ok response ∧
          response.ok = true) := by
  cases ht : r.user.getIdToken with
  | error e =>
    rw [signInWithGoogle_token_error w h ht]
    simp [createProfileRequest]
  | ok idToken =>
    cases hs : w.fetch "/session-login" (sessionLoginInit idToken) with
    | error e =>
      rw [signInWithGoogle_session_error w h ht hs]
      simp [createProfileRequest, sessionLoginRequest, hs]
    | ok response =>
      cases hok : response.ok with
      | false =>
        rw [signInWithGoogle_session_refused w h ht hs hok]
        simp [createProfileRequest, sessionLoginRequest, hs, hok]
      | true =>
        cases hnew : r.additionalUserInfo.isNewUser with
        | false =>
          rw [signInWithGoogle_existing_user w h ht hs hok hnew]
          simp [createProfileRequest, sessionLoginRequest, redirectToOnboarding]
        | true =>
          cases hp : w.fetch "/create-profile" postInit with
          | error e =>
            rw [signInWithGoogle_new_user_profile_error w h ht hs hok hnew hp]
            simp [hs, hok]
          | ok profileResponse =>
            rw [signInWithGoogle_new_user_profile_resolved w h ht hs hok hnew hp]
            simp [hs, hok]

theorem profile_creation_requested_iff_witness :
    createProfileRequest ∈ (signInWithGoogle (sampleWorld true backendUp)).trace :=
  (profile_creation_requested_iff (sampleWorld true backendUp) ⟨sampleUser "token", ⟨true⟩⟩
    rfl).2 ⟨rfl, "token", { ok := true }, rfl, rfl, rfl⟩

/-- Claim C4, as stated, fails: when the `/logout` request fails in transport the run
does not assign `window.location.href`; it ends with the alert of the `catch` block. -/
theorem logout_transport_failure_stays_on_page :
    (signOut (sampleWorld false backendUnreachable)).trace.filter Effect.isSetLocationHref = [] ∧
      (signOut (sampleWorld false backendUnreachable)).trace.getLast? =
        some (.alert "Error signing out. Please clear your cookies.") := by
  rw [@signOut_logout_error (sampleWorld false backendUnreachable) networkError rfl rfl]
  simp [logoutRequest, Effect.isSetLocationHref]

/-- Claim C4 (amended): in every run of `signOut` the provider sign-out is the first
effect, so it precedes any `POST /logout` request, and the returned promise never
rejects.  When the provider sign-out succeeds and the `/logout` request resolves
(with a success or a non-success status) the run ends by assigning `'/login'` to
`window.location.href` and shows no alert.  When the provider sign-out fails or the
`/logout` request fails in transport, `window.location.href` is not assigned and the
single alert `'Error signing out. Please clear your cookies.'` is shown. -/
theorem signOut_never_rejects (w : World) :
    (∃ rest, (signOut w).trace = .authSignOut :: rest) ∧
      (signOut w).completion = .ok () ∧
      (∀ response, w.signOut = .ok () → w.fetch "/logout" postInit = .ok response →
        (signOut w).trace = [.authSignOut, logoutRequest, .setLocationHref "/login"]) ∧
      (((∃ e, w.signOut = .error e) ∨ ∃ e, w.fetch "/logout" postInit = .error e) →
        (signOut w).trace.filter Effect.isSetLocationHref = [] ∧
          (signOut w).trace.filter Effect.isAlert =
            [.alert "Error signing out. Please clear your cookies."]) := by
  cases h : w.signOut with
  | error e =>
    rw [signOut_provider_error w h]
    simp [Effect.isSetLocationHref, Effect.isAlert]
  | ok u =>
    cases hf : w.fetch "/logout" postInit with
    | error e =>
      rw [signOut_logout_error w h hf]
      simp [logoutRequest, Effect.isSetLocationHref, Effect.isAlert]
    | ok response =>
      rw [signOut_logout_resolved w h hf]
      simp

theorem signOut_never_rejects_witness :
    (signOut (sampleWorld false backendFailingFollowUps)).trace =
      [.authSignOut, logoutRequest, .setLocationHref "/login"] :=
  (signOut_never_rejects (sampleWorld false backendFailingFollowUps)).2.2.1
    { ok := false } rfl rfl

/-- Claim C5: in every run of `signInWithGoogle` or `signInWithEmail` in which the
provider sign-in and the token retrieval succeed and `setSessionCookie` yields
`false`, `window.location.href` is never assigned, no `/create-profile` request is
issued, exactly one alert is shown, with the text
`'Failed to log in to backend. Please try again.'`, and the promise resolves. -/
theorem refused_session_alerts_without_redirect (w : World) (email password : String)
    (r : UserCredential) (idToken : String)
    (ht : r.user.getIdToken = .ok idToken)
    (hs : (setSessionCookie w idToken).completion = .ok false) :
    (w.signInWithPopup = .ok r →
        (signInWithGoogle w).trace.filter Effect.isSetLocationHref = [] ∧
          (signInWithGoogle w).trace.filter (Effect.isRequestTo "/create-profile") = [] ∧
          (signInWithGoogle w).trace.filter Effect.isAlert =
            [.alert "Failed to log in to backend. Please try again."] ∧
          (signInWithGoogle w).completion = .ok ()) ∧
      (w.signInWithEmailAndPassword email password = .ok r →
        (signInWithEmail w email password).trace.filter Effect.isSetLocationHref = [] ∧
          (signInWithEmail w email password).trace.filter
            (Effect.isRequestTo "/create-profile") = [] ∧
          (signInWithEmail w email password).trace.filter Effect.isAlert =
            [.alert "Failed to log in to backend. Please try again."] ∧
          (signInWithEmail w email password).completion = .ok ()) := by
  rw [setSessionCookie_eq] at hs
  cases hf : w.fetch "/session-login" (sessionLoginInit idToken) with
  | error e => simp [hf] at hs
  | ok response =>
    have hok : response.ok = false := by simpa [hf] using hs
    constructor
    · intro h
      rw [signInWithGoogle_session_refused w h ht hf hok]
      simp [sessionLoginRequest, Effect.isSetLocationHref, Effect.isRequestTo, Effect.isAlert]
    · intro h
      rw [signInWithEmail_session_refused w email password h ht hf hok]
      simp [sessionLoginRequest, Effect.isSetLocationHref, Effect.isRequestTo, Effect.isAlert]

theorem refused_session_alerts_without_redirect_witness :
    (signInWithEmail (sampleWorld false backendRefusingSession)
        "a@example.com" "correct").trace.filter Effect.isSetLocationHref = [] ∧
      (signInWithEmail (sampleWorld false backendRefusingSession)
        "a@example.com" "correct").trace.filter (Effect.isRequestTo "/create-profile") = [] ∧
      (signInWithEmail (sampleWorld false backendRefusingSession)
        "a@example.com" "correct").trace.filter Effect.isAlert =
          [.alert "Failed to log in to backend. Please try again."] ∧
      (signInWithEmail (sampleWorld false backendRefusingSession)
        "a@example.com" "correct").completion = .ok () :=
  (refused_session_alerts_without_redirect (sampleWorld false backendRefusingSession)
    "a@example.com" "correct" ⟨sampleUser "token", ⟨false⟩⟩ "token" rfl rfl).2 rfl

/-- Claim C6, as stated, fails: provider sign-in, token retrieval and session exchange
succeed and the provider reports a new user, yet when the `/create-profile` request
fails in transport the trace holds no assignment of `window.location.href` for that
request to precede. -/
theorem new_user_profile_failure_has_no_redirect :
    (∃ r, (sampleWorld true backendProfileUnreachable).signInWithPopup = .ok r ∧
        r.user.getIdToken = .ok "token" ∧ r.additionalUserInfo.isNewUser = true) ∧
      (setSessionCookie (sampleWorld true backendProfileUnreachable) "token").completion
        = .ok true ∧
      (signInWithGoogle (sampleWorld true backendProfileUnreachable)).trace.filter
        Effect.isSetLocationHref = [] := by
  refine ⟨⟨⟨sampleUser "token", ⟨true⟩⟩, rfl, rfl, rfl⟩, rfl, ?_⟩
  rw [@signInWithGoogle_new_user_profile_error (sampleWorld true backendProfileUnreachable)
      ⟨sampleUser "token", ⟨true⟩⟩ "token" ⟨true⟩ networkError rfl rfl rfl rfl rfl rfl]
  simp [sessionLoginRequest, createProfileRequest, Effect.isSetLocationHref]

/-- Claim C6 (amended): in every run of `signInWithGoogle` in which the provider
sign-in, the token retrieval and the session exchange succeed and the provider reports
`isNewUser = true`, the trace contains exactly one `/create-profile` request, a `POST`,
and it occurs after the single `POST /session-login` request.  When that request
resolves (with any status) it is followed by the single assignment of
`'/check-onboarding'` to `window.location.href`; when it fails in transport,
`window.location.href` is not assigned. -/
theorem new_user_profile_requested_once (w : World) (r : UserCredential) (idToken : String)
    (h : w.signInWithPopup = .ok r) (ht : r.user.getIdToken = .ok idToken)
    (hs : (setSessionCookie w idToken).completion = .ok true)
    (hnew : r.additionalUserInfo.isNewUser = true) :
    (signInWithGoogle w).trace.filter (Effect.isRequestTo "/create-profile")
        = [createProfileRequest] ∧
      (signInWithGoogle w).trace.filter (Effect.isRequestTo "/session-login")
        = [sessionLoginRequest idToken] ∧
      List.Sublist [sessionLoginRequest idToken, createProfileRequest]
        (signInWithGoogle w).trace ∧
      (∀ profileResponse, w.fetch "/create-profile" postInit = .ok profileResponse →
        List.Sublist [sessionLoginRequest idToken, createProfileRequest, redirectToOnboarding]
            (signInWithGoogle w).trace ∧
          (signInWithGoogle w).trace.filter Effect.isSetLocationHref
            = [redirectToOnboarding]) ∧
      (∀ e, w.fetch "/create-profile" postInit = .error e →
        (signInWithGoogle w).trace.filter Effect.isSetLocationHref = []) := by
  rw [setSessionCookie_eq] at hs
  cases hf : w.fetch "/session-login" (sessionLoginInit idToken) with
  | error e => simp [hf] at hs
  | ok response =>
    have hok : response.ok = true := by simpa [hf] using hs
    cases hp : w.fetch "/create-profile" postInit with
    | error e =>
      rw [signInWithGoogle_new_user_profile_error w h ht hf hok hnew hp]
      simp [sessionLoginRequest, createProfileRequest, Effect.isRequestTo,
        Effect.isSetLocationHref]
    | ok profileResponse =>
      rw [signInWithGoogle_new_user_profile_resolved w h ht hf hok hnew hp]
      simp [sessionLoginRequest, createProfileRequest, redirectToOnboarding,
        Effect.isRequestTo, Effect.isSetLocationHref]

theorem new_user_profile_requested_once_witness :
    (signInWithGoogle (sampleWorld true backendUp)).trace.filter
        (Effect.isRequestTo "/create-profile") = [createProfileRequest] :=
  (new_user_profile_requested_once (sampleWorld true backendUp) ⟨sampleUser "token", ⟨true⟩⟩
    "token" rfl rfl rfl rfl).1

/-- Claim C7: in every run of `signInWithGoogle` in which the provider reports
`isNewUser = false`, and in every run of `signInWithEmail`, no `/create-profile`
request is issued; when the session exchange succeeds the only backend request of the
trace is the single `POST /session-login`, and the trace ends, right after it, with
the assignment of `'/check-onboarding'` to `window.location.href`. -/
theorem existing_user_requests_no_profile (w : World) (email password : String) :
    (∀ r, w.signInWithPopup = .ok r → r.additionalUserInfo.isNewUser = false →
        (signInWithGoogle w).trace.filter (Effect.isRequestTo "/create-profile") = [] ∧
          ∀ idToken, r.user.getIdToken = .ok idToken →
            (setSessionCookie w idToken).completion = .ok true →
            (signInWithGoogle w).trace.filter Effect.isFetch = [sessionLoginRequest idToken] ∧
              List.IsSuffix [sessionLoginRequest idToken, redirectToOnboarding]
                (signInWithGoogle w).trace) ∧
      ((signInWithEmail w email password).trace.filter
          (Effect.isRequestTo "/create-profile") = [] ∧
        ∀ r idToken, w.signInWithEmailAndPassword email password = .ok r →
          r.user.getIdToken = .ok idToken →
          (setSessionCookie w idToken).completion = .ok true →
          (signInWithEmail w email password).trace.filter Effect.isFetch
              = [sessionLoginRequest idToken] ∧
            List.IsSuffix [sessionLoginRequest idToken, redirectToOnboarding]
              (signInWithEmail w email password).trace) := by
  refine ⟨fun r h hnew => ⟨?_, fun idToken ht hs => ?_⟩, ?_, fun r idToken h ht hs => ?_⟩
  · cases ht : r.user.getIdToken with
    | error e =>
      rw [signInWithGoogle_token_error w h ht]
      simp [Effect.isRequestTo]
    | ok idToken =>
      cases hf : w.fetch "/session-login" (sessionLoginInit idToken) with
      | error e =>
        rw [signInWithGoogle_session_error w h ht hf]
        simp [sessionLoginRequest, Effect.isRequestTo]
      | ok response =>
        cases hok : response.ok with
        | false =>
          rw [signInWithGoogle_session_refused w h ht hf hok]
          simp [sessionLoginRequest, Effect.isRequestTo]
        | true =>
          rw [signInWithGoogle_existing_user w h ht hf hok hnew]
          simp [sessionLoginRequest, redirectToOnboarding, Effect.isRequestTo]
  · obtain ⟨response, hf, hok⟩ := setSessionCookie_accepted w idToken hs
    rw [signInWithGoogle_existing_user w h ht hf hok hnew]
    exact ⟨by simp [sessionLoginRequest, redirectToOnboarding, Effect.isFetch],
      [.authSignInWithPopup, .userGetIdToken], rfl⟩
  · cases h : w.signInWithEmailAndPassword email password with
    | error e =>
      rw [signInWithEmail_provider_error w email password h]
      simp [Effect.isRequestTo]
    | ok r =>
      cases ht : r.user.getIdToken with
      | error e =>
        rw [signInWithEmail_token_error w email password h ht]
        simp [Effect.isRequestTo]
      | ok idToken =>
        cases hf : w.fetch "/session-login" (sessionLoginInit idToken) with
        | error e =>
          rw [signInWithEmail_session_error w email password h ht hf]
          simp [sessionLoginRequest, Effect.isRequestTo]
        | ok response =>
          cases hok : response.ok with
          | false =>
            rw [signInWithEmail_session_refused w email password h ht hf hok]
            simp [sessionLoginRequest, Effect.isRequestTo]
          | true =>
            rw [signInWithEmail_session_accepted w email password h ht hf hok]
            simp [sessionLoginRequest, redirectToOnboarding, Effect.isRequestTo]
  · obtain ⟨response, hf, hok⟩ := setSessionCookie_accepted w idToken hs
    rw [signInWithEmail_session_accepted w email password h ht hf hok]
    exact ⟨by simp [sessionLoginRequest, redirectToOnboarding, Effect.isFetch],
      [.authSignInWithEmailAndPassword email password, .userGetIdToken], rfl⟩

theorem existing_user_requests_no_profile_witness :
    (signInWithGoogle (sampleWorld false backendUp)).trace.filter Effect.isFetch
        = [sessionLoginRequest "token"] ∧
      List.IsSuffix [sessionLoginRequest "token", redirectToOnboarding]
        (signInWithGoogle (sampleWorld false backendUp)).trace :=
  ((existing_user_requests_no_profile (sampleWorld false backendUp) "a@example.com"
    "correct").1 ⟨sampleUser "token", ⟨false⟩⟩ rfl rfl).2 "token" rfl rfl

/-- Claim C8: a run of `signUpWithEmail` redirects exactly when the provider call, the
token retrieval and the session exchange succeed and the `/create-profile` request
resolves; in every run that redirects, the trace contains exactly one
`/create-profile` request, a `POST`, and it occurs before the single assignment of
`'/check-onboarding'` to `window.location.href`; and two runs whose worlds differ only
in the `additionalUserInfo` (the new-user flag) of the provider result are the same
run. -/
theorem signUp_requests_profile_before_redirect (w : World) (email password : String) :
    ((signUpWithEmail w email password).trace.filter Effect.isSetLocationHref ≠ [] →
        (signUpWithEmail w email password).trace.filter (Effect.isRequestTo "/create-profile")
            = [createProfileRequest] ∧
          (signUpWithEmail w email password).trace.filter Effect.isSetLocationHref
            = [redirectToOnboarding] ∧
          List.Sublist [createProfileRequest, redirectToOnboarding]
            (signUpWithEmail w email password).trace) ∧
      ((signUpWithEmail w email password).trace.filter Effect.isSetLocationHref ≠ [] ↔
        ∃ r idToken response profileResponse,
          w.createUserWithEmailAndPassword email password = .ok r ∧
            r.user.getIdToken = .ok idToken ∧
            w.fetch "/session-login" (sessionLoginInit idToken) = .ok response ∧
            response.ok = true ∧
            w.fetch "/create-profile" postInit = .ok profileResponse) ∧
      (∀ (w2 : World) (r r2 : UserCredential), w2.fetch = w.fetch →
        w.createUserWithEmailAndPassword email password = .ok r →
        w2.createUserWithEmailAndPassword email password = .ok r2 →
        r2.user = r.user →
        signUpWithEmail w2 email password = signUpWithEmail w email password) := by
  refine ⟨?_, ?_, ?_⟩
  · cases h : w.createUserWithEmailAndPassword email password with
    | error e =>
      rw [signUpWithEmail_provider_error w email password h]
      simp [Effect.isSetLocationHref]
    | ok r =>
      cases ht : r.user.getIdToken with
      | error e =>
        rw [signUpWithEmail_token_error w email password h ht]
        simp [Effect.isSetLocationHref]
      | ok idToken =>
        cases hf : w.fetch "/session-login" (sessionLoginInit idToken) with
        | error e =>
          rw [signUpWithEmail_session_error w email password h ht hf]
          simp [sessionLoginRequest, Effect.isSetLocationHref]
        | ok response =>
          cases hok : response.ok with
          | false =>
            rw [signUpWithEmail_session_refused w email password h ht hf hok]
            simp [sessionLoginRequest, Effect.isSetLocationHref]
          | true =>
            cases hp : w.fetch "/create-profile" postInit with
            | error e =>
              rw [signUpWithEmail_profile_error w email password h ht hf hok hp]
              simp [sessionLoginRequest, createProfileRequest, Effect.isSetLocationHref]
            | ok profileResponse =>
              rw [signUpWithEmail_profile_resolved w email password h ht hf hok hp]
              intro _
              exact ⟨by simp [sessionLoginRequest, createProfileRequest, redirectToOnboarding,
                  Effect.isRequestTo],
                by simp [sessionLoginRequest, createProfileRequest, redirectToOnboarding,
                  Effect.isSetLocationHref],
                .cons _ (.cons _ (.cons _ (List.Sublist.refl _)))⟩
  · constructor
    · intro hredirect
      cases h : w.createUserWithEmailAndPassword email password with
      | error e =>
        rw [signUpWithEmail_provider_error w email password h] at hredirect
        simp [Effect.isSetLocationHref] at hredirect
      | ok r =>
        cases ht : r.user.getIdToken with
        | error e =>
          rw [signUpWithEmail_token_error w email password h ht] at hredirect
          simp [Effect.isSetLocationHref] at hredirect
        | ok idToken =>
          cases hf : w.fetch "/session-login" (sessionLoginInit idToken) with
          | error e =>
            rw [signUpWithEmail_session_error w email password h ht hf] at hredirect
            simp [sessionLoginRequest, Effect.isSetLocationHref] at hredirect
          | ok response =>
            cases hok : response.ok with
            | false =>
              rw [signUpWithEmail_session_refused w email password h ht hf hok] at hredirect
              simp [sessionLoginRequest, Effect.isSetLocationHref] at hredirect
            | true =>
              cases hp : w.fetch "/create-profile" postInit with
              | error e =>
                rw [signUpWithEmail_profile_error w email password h ht hf hok hp] at hredirect
                simp [sessionLoginRequest, createProfileRequest,
                  Effect.isSetLocationHref] at hredirect
              | ok profileResponse =>
                exact ⟨r, idToken, response, profileResponse, rfl, ht, hf, hok, rfl⟩
    · rintro ⟨r, idToken, response, profileResponse, h, ht, hf, hok, hp⟩
      rw [signUpWithEmail_profile_resolved w email password h ht hf hok hp]
      simp [sessionLoginRequest, createProfileRequest, redirectToOnboarding,
        Effect.isSetLocationHref]
  · intro w2 r r2 hfetch h h2 huser
    simp [signUpWithEmail, setSessionCookie, Run.await, Run.andThen, bind, h, h2, hfetch, huser]

theorem signUp_requests_profile_before_redirect_witness :
    (signUpWithEmail (sampleWorld false backendUp) "a@example.com" "correct").trace.filter
        Effect.isSetLocationHref ≠ [] ∧
      ((signUpWithEmail (sampleWorld false backendUp) "a@example.com" "correct").trace.filter
          (Effect.isRequestTo "/create-profile") = [createProfileRequest] ∧
        (signUpWithEmail (sampleWorld false backendUp) "a@example.com" "correct").trace.filter
          Effect.isSetLocationHref = [redirectToOnboarding] ∧
        List.Sublist [createProfileRequest, redirectToOnboarding]
          (signUpWithEmail (sampleWorld false backendUp) "a@example.com" "correct").trace) ∧
      signUpWithEmail (sampleWorld true backendUp) "a@example.com" "correct" =
        signUpWithEmail (sampleWorld false backendUp) "a@example.com" "correct" :=
  ⟨(signUp_requests_profile_before_redirect (sampleWorld false backendUp) "a@example.com"
      "correct").2.1.2 ⟨⟨sampleUser "token", ⟨false⟩⟩, "token", { ok := true }, { ok := true },
        rfl, rfl, rfl, rfl, rfl⟩,
    (signUp_requests_profile_before_redirect (sampleWorld false backendUp) "a@example.com"
      "correct").1
      ((signUp_requests_profile_before_redirect (sampleWorld false backendUp) "a@example.com"
        "correct").2.1.2 ⟨⟨sampleUser "token", ⟨false⟩⟩, "token", { ok := true },
          { ok := true }, rfl, rfl, rfl, rfl, rfl⟩),
    (signUp_requests_profile_before_redirect (sampleWorld false backendUp) "a@example.com"
      "correct").2.2 (sampleWorld true backendUp) ⟨sampleUser "token", ⟨false⟩⟩
      ⟨sampleUser "token", ⟨true⟩⟩ rfl rfl rfl rfl⟩

/-- Claim C9: in every run of `signInWithEmail` or `signUpWithEmail` in which the
provider call fails with an error whose message is `m`, the operation rejects with an
`Error` whose message is `m`, no alert is shown, no backend request is issued and
`window.location.href` is never assigned. -/
theorem provider_failure_is_rethrown (w : World) (email password : String) (err : JsError) :
    (w.signInWithEmailAndPassword email password = .error err →
        (signInWithEmail w email password).completion = .error (JsError.mkError err.message) ∧
          (signInWithEmail w email password).trace.filter Effect.isAlert = [] ∧
          (signInWithEmail w email password).trace.filter Effect.isFetch = [] ∧
          (signInWithEmail w email password).trace.filter Effect.isSetLocationHref = []) ∧
      (w.createUserWithEmailAndPassword email password = .error err →
        (signUpWithEmail w email password).completion = .error (JsError.mkError err.message) ∧
          (signUpWithEmail w email password).trace.filter Effect.isAlert = [] ∧
          (signUpWithEmail w email password).trace.filter Effect.isFetch = [] ∧
          (signUpWithEmail w email password).trace.filter Effect.isSetLocationHref = []) := by
  constructor
  · intro h
    rw [signInWithEmail_provider_error w email password h]
    simp [Effect.isAlert, Effect.isFetch, Effect.isSetLocationHref]
  · intro h
    rw [signUpWithEmail_provider_error w email password h]
    simp [Effect.isAlert, Effect.isFetch, Effect.isSetLocationHref]

theorem provider_failure_is_rethrown_witness :
    (signInWithEmail (sampleWorld false backendUp) "a@example.com" "wrong").completion
        = .error (JsError.mkError "The password is invalid.") ∧
      (signInWithEmail (sampleWorld false backendUp) "a@example.com" "wrong").trace.filter
        Effect.isAlert = [] ∧
      (signInWithEmail (sampleWorld false backendUp) "a@example.com" "wrong").trace.filter
        Effect.isFetch = [] ∧
      (signInWithEmail (sampleWorld false backendUp) "a@example.com" "wrong").trace.filter
        Effect.isSetLocationHref = [] :=
  (provider_failure_is_rethrown (sampleWorld false backendUp) "a@example.com" "wrong"
    wrongPasswordError).1 rfl

/-- Claim C10, evaluated on the code: loading the script always stops at line 15 with a
`ReferenceError`.  `const analytics = getAnalytics(app)` reads `app` before the
declaration of `app` on line 19 has run (or, in a page without `getAnalytics`, fails on
that name), so only `firebaseConfig` is ever initialised: `app`, `auth` and
`googleProvider` are never bound. -/
theorem loadScript_throws (host : HostName → Bool) :
    (loadScript host).error =
        some (if host .getAnalytics then .accessBeforeInitialization .app
          else .notDefined .getAnalytics) ∧
      (loadScript host).initialised = [.firebaseConfig] := by
  cases hg : host .getAnalytics <;>
    simp [loadScript, topLevelDeclarations, evalDeclarations, readAll, readReference, hg]

/-- With line 15 left out, the remaining declarations load without error in any page
that defines `firebase`. -/
theorem evalDeclarations_without_analytics (host : HostName → Bool)
    (h : host .firebase = true) :
    evalDeclarations host []
        (topLevelDeclarations.filter fun d => decide (d.name ≠ .analytics)) =
      { initialised := [.firebaseConfig, .app, .auth, .googleProvider], error := none } := by
  simp [topLevelDeclarations, evalDeclarations, readAll, readReference, h]

end SessionBridge
